import Mathlib

/-!
Shallow embedding of `apps/api/v2/src/ee/bookings/controllers/bookings.controller.ts`
(the bookings request-orchestration controller) and proofs about it.

Modelling conventions:
* TypeScript `number | undefined | null` fields are `Option Int` / `Option Nat`;
  the JavaScript `NaN` value (distinct from absence) is the `JSNum.nan`
  constructor.
* Raising an exception is modelled with `Except`: a collaborator that may throw
  is a function into `Except String _` (the `String` is the thrown error's
  payload, which the controller only logs).
* The mutable module-level object `DEFAULT_PLATFORM_PARAMS` is modelled by
  threading its current contents (`PlatformState`) through every function that
  reads or writes it; `const res = DEFAULT_PLATFORM_PARAMS` aliases that object,
  so writes to `res` become updates of the threaded state.
* External collaborators (api-key repository, OAuth flow service, OAuth client
  repository, hash function, booking engine) are oracle parameters, so theorems
  quantify over every possible collaborator behaviour.
* Billing calls (`increaseUsageByUserId`, `cancelUsageByBookingUid`) are
  recorded in an event trace; engine invocations are recorded in a call trace.
-/

/-- JavaScript number that may be `NaN` (e.g. the result of `parseInt`). -/
inductive JSNum where
  | nan : JSNum
  | val : Int → JSNum
deriving DecidableEq, Repr

/-- JavaScript truthiness of a possibly-absent number: `undefined`, `null` and
`0` are falsy. -/
def jsTruthyInt : Option Int → Bool
  | none => false
  | some n => n != 0

/-- JavaScript truthiness of a possibly-absent string: `undefined`, `null` and
`""` are falsy. -/
def jsTruthyStr : Option String → Bool
  | none => false
  | some s => s != ""

/-- Does `p` occur at the head of `l`?  (Hand-rolled list head matcher used to
embed JavaScript `String.startsWith`.) -/
def headMatches : List Char → List Char → Bool
  | [], _ => true
  | _ :: _, [] => false
  | a :: as, b :: bs => a == b && headMatches as bs

/-- JavaScript `target.replace(needle, repl)` on lists of characters: replaces
the first occurrence of `needle` only, and returns `target` unchanged when
`needle` does not occur. -/
def replaceFirstL (needle repl : List Char) : List Char → List Char
  | [] => if headMatches needle [] then repl else []
  | c :: rest =>
    if headMatches needle (c :: rest) then repl ++ (c :: rest).drop needle.length
    else c :: replaceFirstL needle repl rest

/-- JavaScript `s.replace(needle, repl)` (first occurrence only). -/
def jsReplaceFirst (needle repl s : String) : String :=
  ⟨replaceFirstL needle.data repl.data s.data⟩

/-- White-space characters skipped by JavaScript `parseInt`. -/
def jsWhitespace (c : Char) : Bool :=
  c == ' ' || c == '\t' || c == '\n' || c == '\r' || c == '\x0b' || c == '\x0c'

/-- Value of a hexadecimal digit character (code points 48–57, 97–102 and
65–70), if it is one. -/
def hexDigitVal (c : Char) : Option Nat :=
  let n := c.toNat
  if 48 ≤ n ∧ n ≤ 57 then some (n - 48)
  else if 97 ≤ n ∧ n ≤ 102 then some (n - 87)
  else if 65 ≤ n ∧ n ≤ 70 then some (n - 55)
  else none

/-- JavaScript `parseInt(s)` with no radix argument: skip leading white space,
read an optional sign, detect a `0x`/`0X` hex marker, then consume the longest
run of digits of the detected base; `NaN` when that run is empty. -/
def parseIntCore (l0 : List Char) : JSNum :=
  let l1 := l0.dropWhile jsWhitespace
  let sign : Int := match l1 with
    | '-' :: _ => -1
    | _ => 1
  let l2 := match l1 with
    | '-' :: r => r
    | '+' :: r => r
    | _ => l1
  let base : Nat := match l2 with
    | '0' :: 'x' :: _ => 16
    | '0' :: 'X' :: _ => 16
    | _ => 10
  let l3 := match l2 with
    | '0' :: 'x' :: r => r
    | '0' :: 'X' :: r => r
    | _ => l2
  let ds := l3.takeWhile (fun c => ((hexDigitVal c).getD base) < base)
  if ds.isEmpty then JSNum.nan
  else JSNum.val (sign * Int.ofNat (ds.foldl (fun acc c => acc * base + (hexDigitVal c).getD 0) 0))

/-- JavaScript `parseInt(s)` on strings. -/
def parseIntJS (s : String) : JSNum :=
  parseIntCore s.data

/-- The `ConfigService` entries read by the controller: `api.apiKeyPrefix`
(defaulted to `"cal_"` at the call site) and `api.keyPrefix` (passed through
as possibly absent). -/
structure ApiConfig where
  apiKeyPfx : Option String
  keyPfx : Option String

/-- An OAuth client record as read from the database; each redirect/flag field
is individually nullable (coalesced by the controller). -/
structure ClientRecord where
  bookingCancelRedirectUri : Option String
  bookingRescheduleRedirectUri : Option String
  bookingRedirectUri : Option String
  areEmailsEnabled : Option Bool

/-- The `OAuthRequestParams` shape merged onto the request. -/
structure OAuthRequestParams where
  platformClientId : String
  platformCancelUrl : String
  platformRescheduleUrl : String
  platformBookingUrl : String
  arePlatformEmailsEnabled : Bool
  platformBookingLocation : Option String
deriving DecidableEq, Repr

/-- Initial contents of the module-level `DEFAULT_PLATFORM_PARAMS` object. -/
def DEFAULT_PLATFORM_PARAMS : OAuthRequestParams :=
  { platformClientId := ""
    platformCancelUrl := ""
    platformRescheduleUrl := ""
    platformBookingUrl := ""
    arePlatformEmailsEnabled := false
    platformBookingLocation := none }

/-- Current contents of the shared mutable `DEFAULT_PLATFORM_PARAMS` object.
`getOAuthClientsParams` aliases (not copies) that object, so its writes are
visible to every later reader. -/
abbrev PlatformState := OAuthRequestParams

/-- The controller's injected collaborators, as oracles.  Fallible calls return
`Except String _`, where `Except.error` models a thrown exception. -/
structure Services where
  /-- Modelled from the spec: `hashAPIKey` (imported from `@/lib/api-key`, not
  under `src/`) computes a one-way hash of the secret; uninterpreted here. -/
  hash : String → String
  /-- `apiKeyRepository.getApiKeyFromHash(hash)` followed by `?.userId`:
  `some uid` when a record matches the hash, `none` otherwise; may throw. -/
  apiKeyRepo : String → Except String (Option Int)
  /-- `oAuthFlowService.getOwnerId(accessToken)`; may throw. -/
  oAuthFlow : String → Except String (Option Int)
  /-- `oAuthClientRepository.getOAuthClient(clientId)`; may throw. -/
  oAuthClientRepo : String → Except String (Option ClientRecord)
  config : ApiConfig

/-- Modelled from the spec: `isApiKey` (imported from `@/lib/api-key`, not under
`src/`) classifies a credential as a static API key when it begins with the
key prefix. -/
def isApiKey (token : String) (pfx : String) : Bool :=
  headMatches pfx.data token.data

/-- Modelled from the spec: `stripApiKey` (imported from `@/lib/api-key`, not
under `src/`) strips the key prefix (defaulting to `"cal_"` when the
configuration entry is absent) from the front of the credential. -/
def stripApiKey (token : String) (pfx : Option String) : String :=
  let p := pfx.getD "cal_"
  if headMatches p.data token.data then ⟨token.data.drop p.data.length⟩ else token

/-- Body of `BookingsController.getOwnerId` (lines 302–319) before its
`try`/`catch`: resolve the bearer credential to an owner id, where any
collaborator exception propagates. -/
def getOwnerIdBody (sv : Services) (authHeader : Option String) : Except String (Option Int) :=
  let bearerToken := authHeader.map (fun a => jsReplaceFirst "Bearer " "" a)
  match bearerToken with
  | none => Except.ok none
  | some tok =>
    if tok == "" then Except.ok none
    else if isApiKey tok (sv.config.apiKeyPfx.getD "cal_") then
      let strippedApiKey := stripApiKey tok sv.config.keyPfx
      let apiKeyHash := sv.hash strippedApiKey
      match sv.apiKeyRepo apiKeyHash with
      | Except.ok keyData => Except.ok keyData
      | Except.error e => Except.error e
    else
      sv.oAuthFlow tok

/-- `BookingsController.getOwnerId` as its callers intend to see it: the body
wrapped in `try`/`catch`, with every exception logged and converted to
`undefined`.  This is an idealization in one place: the actual JavaScript
returns the token-introspection promise without `await` (line 313), so that
branch's rejection escapes the `catch` — the faithful model is
`getOwnerIdAsync` below, which agrees with this function on every input
except a non-api-key credential whose introspection call fails. -/
def getOwnerId (sv : Services) (authHeader : Option String) : Option Int :=
  match getOwnerIdBody sv authHeader with
  | Except.ok v => v
  | Except.error _ => none

/-- `BookingsController.getOwnerId` (lines 302–319) under the actual
JavaScript async semantics of its `try`/`catch`.  The api-key branch `await`s
the repository lookup inside the `try` (line 309), so a storage exception is
caught, logged, and the function completes normally with `undefined`.  The
access-token branch (line 313) is `return this.oAuthFlowService.getOwnerId(
bearerToken);` — a `return` of the promise without `await`, so the `try`
block exits normally and a later rejection of that promise is not intercepted
by the `catch`: the function's own promise rejects, uncaught and unlogged
(the `return` vs `return await` pitfall). -/
def getOwnerIdAsync (sv : Services) (authHeader : Option String) : Except String (Option Int) :=
  let bearerToken := authHeader.map (fun a => jsReplaceFirst "Bearer " "" a)
  match bearerToken with
  | none => Except.ok none
  | some tok =>
    if tok == "" then Except.ok none
    else if isApiKey tok (sv.config.apiKeyPfx.getD "cal_") then
      let strippedApiKey := stripApiKey tok sv.config.keyPfx
      let apiKeyHash := sv.hash strippedApiKey
      match sv.apiKeyRepo apiKeyHash with
      | Except.ok keyData => Except.ok keyData
      | Except.error _ => Except.ok none
    else
      sv.oAuthFlow tok

/-- `BookingsController.getOAuthClientsParams` (lines 321–338).
`const res = DEFAULT_PLATFORM_PARAMS` aliases the shared object (current
contents `st`); when the client is found, five fields of that object are
overwritten in place.  Returns the value `res` seen by the caller together
with the new contents of the shared object (the same object). -/
def getOAuthClientsParams (sv : Services) (clientId : String) (st : PlatformState) :
    OAuthRequestParams × PlatformState :=
  match sv.oAuthClientRepo clientId with
  | Except.ok (some client) =>
    let res := { st with
      platformClientId := clientId
      platformCancelUrl := client.bookingCancelRedirectUri.getD ""
      platformRescheduleUrl := client.bookingRescheduleRedirectUri.getD ""
      platformBookingUrl := client.bookingRedirectUri.getD ""
      arePlatformEmailsEnabled := client.areEmailsEnabled.getD false }
    (res, res)
  | Except.ok none => (st, st)
  | Except.error _ => (st, st)

/-- The mutable request body fields the controller reads or writes (other
payload fields flow through untouched and are irrelevant to the claims). -/
structure ReqBody where
  orgSlug : Option String := none
  locationUrl : Option String := none
  id : Option JSNum := none
  noEmail : Option Bool := none
deriving DecidableEq, Repr

/-- The inbound request object, with the fields the controller reads plus the
fields `Object.assign` writes onto it (absent until assigned). -/
structure Req where
  authHeader : Option String := none
  forceSlugHeader : Option String := none
  userId : Option Int := none
  platformClientId : Option String := none
  platformCancelUrl : Option String := none
  platformRescheduleUrl : Option String := none
  platformBookingUrl : Option String := none
  arePlatformEmailsEnabled : Option Bool := none
  platformBookingLocation : Option String := none
  body : ReqBody := {}
deriving DecidableEq, Repr

/-- The ternary `oAuthClientId ? await this.getOAuthClientsParams(oAuthClientId)
: DEFAULT_PLATFORM_PARAMS` inside `createNextApiBookingRequest`: when the
client id is falsy the shared object itself (current contents `st`) is used. -/
def resolvePlatformParams (sv : Services) (oAuthClientId : Option String)
    (st : PlatformState) : OAuthRequestParams × PlatformState :=
  if jsTruthyStr oAuthClientId then getOAuthClientsParams sv (oAuthClientId.getD "") st
  else (st, st)

/-- `BookingsController.createNextApiBookingRequest` (lines 340–352): resolve
the owner id (sentinel `-1` when absent), resolve the platform params, merge
both plus `platformBookingLocation` onto the request with `Object.assign`, and
set `body.noEmail` to the negation of `arePlatformEmailsEnabled`. -/
def createNextApiBookingRequest (sv : Services) (req : Req)
    (oAuthClientId : Option String) (platformBookingLocation : Option String)
    (st : PlatformState) : Req × PlatformState :=
  let userId := (getOwnerId sv req.authHeader).getD (-1)
  let pr := resolvePlatformParams sv oAuthClientId st
  let oAuthParams := pr.1
  let req1 := { req with
    userId := some userId
    platformClientId := some oAuthParams.platformClientId
    platformCancelUrl := some oAuthParams.platformCancelUrl
    platformRescheduleUrl := some oAuthParams.platformRescheduleUrl
    platformBookingUrl := some oAuthParams.platformBookingUrl
    arePlatformEmailsEnabled := some oAuthParams.arePlatformEmailsEnabled
    platformBookingLocation := platformBookingLocation }
  ({ req1 with body := { req1.body with noEmail := some (!oAuthParams.arePlatformEmailsEnabled) } },
   pr.2)

/-- A thrown value as discriminated by `handleBookingErrors`:
`HttpError` from the platform libraries (per the spec a domain error always
carrying its own status code and message), a plain `Error` (always carrying a
message string), or a thrown non-`Error` value. -/
inductive ErrKind where
  | httpError : Nat → String → ErrKind
  | error : String → ErrKind
  | nonError : ErrKind
deriving DecidableEq, Repr

/-- The normalized `{statusCode, message}` failure shape
(`HttpException` / `InternalServerErrorException` / `NotFoundException`). -/
structure ClassifiedError where
  statusCode : Nat
  message : String
deriving DecidableEq, Repr

/-- The optional `type` argument of `handleBookingErrors`. -/
inductive OpLabel where
  | recurring
  | instant
  | noShow
deriving DecidableEq, Repr

/-- Rendering of an `OpLabel` inside the templated message. -/
def OpLabel.str : OpLabel → String
  | .recurring => "recurring"
  | .instant => "instant"
  | .noShow => "no-show"

/-- `BookingsController.handleBookingErrors` (lines 354–373).  The function
always throws; we model the exception it throws as its return value, and every
call site re-raises it.  An `HttpError` is re-thrown as `HttpException` with
its own message and status (the `?? errMsg` / `?? 500` coalescings are
identities because an `HttpError` carries both); an `Error` becomes an
`InternalServerErrorException` (status 500) with its message; anything else
becomes an `InternalServerErrorException` with the templated message. -/
def handleBookingErrors (err : ErrKind) (type : Option OpLabel) : ClassifiedError :=
  let errMsg :=
    if type == some OpLabel.noShow then "Error while marking no-show."
    else "Error while creating " ++ (match type with
      | some t => t.str ++ " "
      | none => "") ++ "booking."
  match err with
  | ErrKind.httpError statusCode message => { statusCode := statusCode, message := message }
  | ErrKind.error message => { statusCode := 500, message := message }
  | ErrKind.nonError => { statusCode := 500, message := errMsg }

/-- Result of `handleNewBooking` (fields used by the controller; the return
type is `Partial<BookingResponse>`, so every field may be absent; `startTime`
is a `Date`, truthy whenever present). -/
structure BookingResponse where
  userId : Option Int := none
  uid : Option String := none
  startTime : Option Nat := none
  fromReschedule : Option Bool := none
deriving DecidableEq, Repr

/-- Result of `handleCancelBooking`. -/
structure CancelResult where
  bookingId : Int
  bookingUid : String
  onlyRemovedAttendee : Bool
deriving DecidableEq, Repr

/-- Result of `handleInstantMeeting` (fields used by the controller). -/
structure InstantResult where
  userId : Option Int := none
  bookingUid : Option String := none
deriving DecidableEq, Repr

/-- A billing-service call issued by the controller. -/
inductive BillingEvent where
  | increaseUsage : Int → String → Nat → Option Bool → BillingEvent
  | cancelUsage : String → BillingEvent
deriving DecidableEq, Repr

/-- The `{status, data}` success envelope. -/
structure Envelope (α : Type) where
  status : String
  data : α
deriving DecidableEq, Repr

/-- Observable outcome of one handler invocation: the response or classified
error handed to the transport layer, the billing calls issued, and the
requests passed to the booking engine. -/
structure HandlerOut (α : Type) where
  result : Except ClassifiedError (Envelope α)
  billing : List BillingEvent
  engineCalls : List Req
deriving Repr

/-- Request assembly performed by `createBooking` before the engine call
(lines 159–164): copy `body.orgSlug` into the `x-cal-force-slug` header, then
run `createNextApiBookingRequest` with the client id and `body.locationUrl`. -/
def createBookingAssemble (sv : Services) (req : Req) (clientId : Option String)
    (st : PlatformState) : Req × PlatformState :=
  let req1 := { req with forceSlugHeader := req.body.orgSlug }
  createNextApiBookingRequest sv req1 clientId req1.body.locationUrl st

/-- `BookingsController.createBooking` (lines 153–181): assemble the request,
call `handleNewBooking`; on success emit one usage event when `userId`, `uid`
and `startTime` are all truthy, and return the success envelope; on failure
re-raise what `handleBookingErrors` throws (no `type` argument).  The trailing
`throw new InternalServerErrorException("Could not create booking.")` is
unreachable because `handleBookingErrors` always throws. -/
def createBooking (sv : Services) (engine : Req → Except ErrKind BookingResponse)
    (req : Req) (clientId : Option String) (st : PlatformState) :
    HandlerOut BookingResponse × PlatformState :=
  let ar := createBookingAssemble sv req clientId st
  match engine ar.1 with
  | Except.ok booking =>
    let events :=
      if jsTruthyInt booking.userId && jsTruthyStr booking.uid && booking.startTime.isSome then
        [BillingEvent.increaseUsage (booking.userId.getD 0) (booking.uid.getD "")
          (booking.startTime.getD 0) booking.fromReschedule]
      else []
    ({ result := Except.ok { status := "success", data := booking }
       billing := events
       engineCalls := [ar.1] }, ar.2)
  | Except.error err =>
    ({ result := Except.error (handleBookingErrors err none)
       billing := []
       engineCalls := [ar.1] }, ar.2)

/-- Request assembly performed by `cancelBooking` inside the truthy-id branch
(lines 193–194): write `parseInt(bookingId)` into `body.id`, then run
`createNextApiBookingRequest` with the client id and no booking location. -/
def cancelBookingAssemble (sv : Services) (req : Req) (bookingId : String)
    (clientId : Option String) (st : PlatformState) : Req × PlatformState :=
  let req1 := { req with body := { req.body with id := some (parseIntJS bookingId) } }
  createNextApiBookingRequest sv req1 clientId none st

/-- `BookingsController.cancelBooking` (lines 183–213): when the path
parameter is truthy, set `body.id` from `parseInt`, call
`handleCancelBooking`, emit a cancel-usage event keyed by the returned uid
unless only an attendee was removed, and return the success envelope (failures
go through `handleBookingErrors` with no `type`); when the path parameter is
falsy, throw `NotFoundException("Booking ID is required.")` (status 404)
without calling the engine. -/
def cancelBooking (sv : Services) (engine : Req → Except ErrKind CancelResult)
    (req : Req) (bookingId : Option String) (clientId : Option String)
    (st : PlatformState) : HandlerOut CancelResult × PlatformState :=
  if jsTruthyStr bookingId then
    let ar := cancelBookingAssemble sv req (bookingId.getD "") clientId st
    match engine ar.1 with
    | Except.ok res =>
      let events := if !res.onlyRemovedAttendee then [BillingEvent.cancelUsage res.bookingUid] else []
      ({ result := Except.ok { status := "success", data := res }
         billing := events
         engineCalls := [ar.1] }, ar.2)
    | Except.error err =>
      ({ result := Except.error (handleBookingErrors err none)
         billing := []
         engineCalls := [ar.1] }, ar.2)
  else
    ({ result := Except.error { statusCode := 404, message := "Booking ID is required." }
       billing := []
       engineCalls := [] }, st)

/-- Request assembly performed by `createInstantBooking` (lines 276–279):
first overwrite `req.userId` with the resolved owner id or the sentinel `-1`,
then run `createNextApiBookingRequest` with the client id and no booking
location. -/
def createInstantBookingAssemble (sv : Services) (req : Req)
    (clientId : Option String) (st : PlatformState) : Req × PlatformState :=
  let req1 := { req with userId := some ((getOwnerId sv req.authHeader).getD (-1)) }
  createNextApiBookingRequest sv req1 clientId none st

/-- `BookingsController.createInstantBooking` (lines 269–300): substitute the
sentinel owner id, assemble, call `handleInstantMeeting`; on success, when
`userId` and `bookingUid` are truthy, emit one usage event whose start time is
the current time advanced by 10 seconds; failures go through
`handleBookingErrors` with the `"instant"` label.  `now` is the current clock
reading in seconds. -/
def createInstantBooking (sv : Services) (engine : Req → Except ErrKind InstantResult)
    (req : Req) (clientId : Option String) (now : Nat) (st : PlatformState) :
    HandlerOut InstantResult × PlatformState :=
  let ar := createInstantBookingAssemble sv req clientId st
  match engine ar.1 with
  | Except.ok instantMeeting =>
    let events :=
      if jsTruthyInt instantMeeting.userId && jsTruthyStr instantMeeting.bookingUid then
        [BillingEvent.increaseUsage (instantMeeting.userId.getD 0)
          (instantMeeting.bookingUid.getD "") (now + 10) none]
      else []
    ({ result := Except.ok { status := "success", data := instantMeeting }
       billing := events
       engineCalls := [ar.1] }, ar.2)
  | Except.error err =>
    ({ result := Except.error (handleBookingErrors err (some OpLabel.instant))
       billing := []
       engineCalls := [ar.1] }, ar.2)

/-! Helper lemmas about the string embedding. -/

theorem headMatches_append_self (p s : List Char) : headMatches p (p ++ s) = true := by
  induction p with
  | nil => rfl
  | cons a as ih => simp [headMatches, ih]

theorem string_data_append (a b : String) : (a ++ b).data = a.data ++ b.data := by
  cases a; cases b; rfl

theorem isApiKey_append_self (pfx secret : String) : isApiKey (pfx ++ secret) pfx = true := by
  unfold isApiKey
  rw [string_data_append]
  exact headMatches_append_self pfx.data secret.data

theorem stripApiKey_append_self (pfx secret : String) (o : Option String)
    (h : o.getD "cal_" = pfx) : stripApiKey (pfx ++ secret) o = secret := by
  simp only [stripApiKey, h, string_data_append, headMatches_append_self, if_true,
    List.drop_left]

/-! Concrete fixtures used by witnesses and counterexamples. -/

/-- A client record with emails enabled, used to exercise the partner lookup. -/
def clientRecA : ClientRecord :=
  { bookingCancelRedirectUri := some "https://cancel.example"
    bookingRescheduleRedirectUri := none
    bookingRedirectUri := some "https://book.example"
    areEmailsEnabled := some true }

/-- Concrete non-throwing collaborators: the api-key repository knows exactly
the hash `"#sec"` (owner `7`) and the client directory knows every id. -/
def svA : Services :=
  { hash := fun s => "#" ++ s
    apiKeyRepo := fun h => if h == "#sec" then Except.ok (some 7) else Except.ok none
    oAuthFlow := fun _ => Except.ok none
    oAuthClientRepo := fun _ => Except.ok (some clientRecA)
    config := { apiKeyPfx := some "cal_", keyPfx := some "cal_" } }

/-- Collaborators whose api-key lookup always throws (a storage failure). -/
def svErr : Services :=
  { hash := fun s => "#" ++ s
    apiKeyRepo := fun _ => Except.error "db down"
    oAuthFlow := fun _ => Except.error "introspection down"
    oAuthClientRepo := fun _ => Except.ok none
    config := { apiKeyPfx := some "cal_", keyPfx := some "cal_" } }

/-- Booking engine that always reports a booking with no billable fields. -/
def emptyBookingEngine : Req → Except ErrKind BookingResponse :=
  fun _ => Except.ok {}

/-- Booking engine returning a fully billable booking (owner 7, uid "abc"). -/
def billableBookingEngine : Req → Except ErrKind BookingResponse :=
  fun _ => Except.ok
    { userId := some 7, uid := some "abc", startTime := some 5, fromReschedule := some true }

/-- Booking engine returning a booking whose owner id is present but `0`. -/
def zeroOwnerBookingEngine : Req → Except ErrKind BookingResponse :=
  fun _ => Except.ok
    { userId := some 0, uid := some "abc", startTime := some 5, fromReschedule := none }

/-- Cancellation engine that reports full removal of booking 12 / uid "u1". -/
def fullCancelEngine : Req → Except ErrKind CancelResult :=
  fun _ => Except.ok { bookingId := 12, bookingUid := "u1", onlyRemovedAttendee := false }

/-- Instant-meeting engine returning owner 9 and uid "xyz". -/
def instantEngineA : Req → Except ErrKind InstantResult :=
  fun _ => Except.ok { userId := some 9, bookingUid := some "xyz" }

/-- Instant-meeting engine whose owner id is present but `0`. -/
def zeroOwnerInstantEngine : Req → Except ErrKind InstantResult :=
  fun _ => Except.ok { userId := some 0, bookingUid := some "xyz" }

/-! Claim theorems. -/

/-- C1: the claim that a request with no partner id (or a failed lookup) always
resolves the default partner configuration, unaffected by earlier requests, is
falsified by the code: `getOAuthClientsParams` aliases the module-level
`DEFAULT_PLATFORM_PARAMS` object (`const res = DEFAULT_PLATFORM_PARAMS`) and
mutates it in place, so after one request with a found partner id
`"client-1"`, a second request with no partner id resolves a configuration
whose `platformClientId` is `"client-1"` and whose emails flag is `true`,
while the intended default has `platformClientId = ""` and emails disabled. -/
theorem default_params_leak_across_requests :
    ((createBooking svA emptyBookingEngine {} none
        (createBooking svA emptyBookingEngine {} (some "client-1")
          DEFAULT_PLATFORM_PARAMS).2).1.engineCalls.map Req.platformClientId
      = [some "client-1"]) ∧
    ((createBooking svA emptyBookingEngine {} none
        (createBooking svA emptyBookingEngine {} (some "client-1")
          DEFAULT_PLATFORM_PARAMS).2).1.engineCalls.map Req.arePlatformEmailsEnabled
      = [some true]) ∧
    DEFAULT_PLATFORM_PARAMS.platformClientId = "" ∧
    DEFAULT_PLATFORM_PARAMS.arePlatformEmailsEnabled = false := by
  refine ⟨rfl, rfl, rfl, rfl⟩

/-- C3: the error classifier propagates a domain error's status and message
verbatim, maps a generic error with a message to status 500 with that message,
and otherwise synthesizes the templated message (with the fixed no-show
variant), always with status 500.  Every call site re-raises the classified
error, so classification always raises outward. -/
theorem handleBookingErrors_classification (t : Option OpLabel) (s : Nat) (m : String) :
    handleBookingErrors (ErrKind.httpError s m) t = { statusCode := s, message := m } ∧
    handleBookingErrors (ErrKind.error m) t = { statusCode := 500, message := m } ∧
    handleBookingErrors ErrKind.nonError none
      = { statusCode := 500, message := "Error while creating booking." } ∧
    handleBookingErrors ErrKind.nonError (some OpLabel.recurring)
      = { statusCode := 500, message := "Error while creating recurring booking." } ∧
    handleBookingErrors ErrKind.nonError (some OpLabel.instant)
      = { statusCode := 500, message := "Error while creating instant booking." } ∧
    handleBookingErrors ErrKind.nonError (some OpLabel.noShow)
      = { statusCode := 500, message := "Error while marking no-show." } := by
  refine ⟨rfl, rfl, rfl, rfl, rfl, rfl⟩

/-- C9: the `noEmail` flag written into the assembled request body is always
the boolean negation of the resolved platform configuration's
`arePlatformEmailsEnabled` flag. -/
theorem noEmail_is_negation_of_emailsEnabled (sv : Services) (req : Req)
    (clientId : Option String) (loc : Option String) (st : PlatformState) :
    (createNextApiBookingRequest sv req clientId loc st).1.body.noEmail
      = some (!(resolvePlatformParams sv clientId st).1.arePlatformEmailsEnabled) := by
  rfl

/-- C2: for a credential of the form `keyPrefix ++ secret` (where the two
configuration entries agree on the configured key prefix, after the call-site
default `"cal_"`), `getOwnerId` strips exactly the prefix, hashes the
remaining secret, performs the lookup by that hash, and returns exactly what
the lookup associates with the hash (`some` owner id when a record matches,
`none` otherwise). -/
theorem getOwnerId_resolves_api_key (sv : Services) (pfx secret header : String)
    (r : Option Int)
    (hpfx : sv.config.apiKeyPfx.getD "cal_" = pfx)
    (hcoh : sv.config.keyPfx.getD "cal_" = pfx)
    (htok : jsReplaceFirst "Bearer " "" header = pfx ++ secret)
    (hne : pfx ++ secret ≠ "")
    (hrepo : sv.apiKeyRepo (sv.hash secret) = Except.ok r) :
    getOwnerId sv (some header) = r := by
  simp [getOwnerId, getOwnerIdBody, htok, hpfx, hcoh, hne, isApiKey_append_self,
    stripApiKey_append_self pfx secret sv.config.keyPfx hcoh, hrepo]

/-- C2 witness: with the concrete collaborators `svA`, the credential
`"Bearer cal_sec"` resolves to owner `7` (the record stored under the hash of
`"sec"`). -/
theorem getOwnerId_resolves_api_key_witness :
    getOwnerId svA (some "Bearer cal_sec") = some 7 :=
  getOwnerId_resolves_api_key svA "cal_" "sec" "Bearer cal_sec" (some 7)
    rfl rfl (by decide) (by decide) rfl

/-- C8: the claim that `getOwnerId` never raises — that a token-introspection
failure, like every other exception, is caught, logged, and converted to
absent — is falsified by the code: under the actual async semantics
(`getOwnerIdAsync`), the access-token credential `"Bearer tok123"` with a
rejecting introspection service (`svErr`) makes `getOwnerId` itself reject
with that failure, uncaught and unlogged, because line 313 returns the
introspection promise without `await` inside the `try`; by contrast the
api-key-shaped credential `"Bearer cal_x"`, whose repository lookup is
properly `await`ed, has its storage failure caught and yields absent as the
claim demands. -/
theorem getOwnerId_introspection_rejection_escapes :
    getOwnerIdAsync svErr (some "Bearer tok123") = Except.error "introspection down" ∧
    getOwnerIdAsync svErr (some "Bearer cal_x") = Except.ok none := by
  refine ⟨rfl, rfl⟩

/-- C4 counterexample: an engine result in which owner id, uid and start time
are all present (`userId = some 0`, `uid = some "abc"`, `startTime = some 5`)
but for which the handler emits no usage event, because the code tests
JavaScript truthiness and `0` is falsy; the engine call itself succeeded. -/
theorem createBooking_present_zero_owner_no_event :
    (createBooking svA zeroOwnerBookingEngine {} none DEFAULT_PLATFORM_PARAMS).1.billing = [] ∧
    (createBooking svA zeroOwnerBookingEngine {} none DEFAULT_PLATFORM_PARAMS).1.result
      = Except.ok { status := "success"
                    data := { userId := some 0, uid := some "abc", startTime := some 5
                              fromReschedule := none } } := by
  refine ⟨rfl, rfl⟩

/-- C4 (amended): for a successful create-booking engine result whose owner id
is present and non-zero, whose uid is present and non-empty, and whose start
time is present, exactly one usage event is emitted, carrying that owner id,
that uid, that start time, and the result's `fromReschedule`; when the owner
id is absent or zero, the uid absent or empty, or the start time absent, no
usage event is emitted. -/
theorem createBooking_usage_event (sv : Services)
    (engine : Req → Except ErrKind BookingResponse) (req : Req)
    (clientId : Option String) (st : PlatformState) (booking : BookingResponse)
    (u : Int) (uid : String) (t : Nat)
    (heng : engine (createBookingAssemble sv req clientId st).1 = Except.ok booking) :
    (booking.userId = some u → u ≠ 0 → booking.uid = some uid → uid ≠ "" →
      booking.startTime = some t →
      (createBooking sv engine req clientId st).1.billing
        = [BillingEvent.increaseUsage u uid t booking.fromReschedule]) ∧
    ((jsTruthyInt booking.userId = false ∨ jsTruthyStr booking.uid = false ∨
        booking.startTime = none) →
      (createBooking sv engine req clientId st).1.billing = []) := by
  constructor
  · intro hu hu0 hid hid0 ht
    simp [createBooking, heng, hu, hid, ht, jsTruthyInt, jsTruthyStr, hu0, hid0]
  · intro h
    rcases h with h | h | h <;>
      simp [createBooking, heng, h]

/-- C4 witness: a successful booking with owner `7`, uid `"abc"`, start time
`5` and `fromReschedule = some true` yields exactly that one usage event. -/
theorem createBooking_usage_event_witness :
    (createBooking svA billableBookingEngine {} none DEFAULT_PLATFORM_PARAMS).1.billing
      = [BillingEvent.increaseUsage 7 "abc" 5 (some true)] :=
  (createBooking_usage_event svA billableBookingEngine {} none DEFAULT_PLATFORM_PARAMS
    { userId := some 7, uid := some "abc", startTime := some 5, fromReschedule := some true }
    7 "abc" 5 rfl).1 rfl (by decide) rfl (by decide) rfl

/-- C5: for a successful cancellation engine result, no cancellation
accounting event is emitted when only an attendee was removed, and exactly one
cancel-usage event keyed by the returned uid is emitted when the whole booking
was removed. -/
theorem cancelBooking_accounting (sv : Services)
    (engine : Req → Except ErrKind CancelResult) (req : Req)
    (bookingId : Option String) (clientId : Option String) (st : PlatformState)
    (res : CancelResult)
    (hb : jsTruthyStr bookingId = true)
    (heng : engine (cancelBookingAssemble sv req (bookingId.getD "") clientId st).1
      = Except.ok res) :
    (res.onlyRemovedAttendee = true →
      (cancelBooking sv engine req bookingId clientId st).1.billing = []) ∧
    (res.onlyRemovedAttendee = false →
      (cancelBooking sv engine req bookingId clientId st).1.billing
        = [BillingEvent.cancelUsage res.bookingUid]) := by
  constructor
  · intro h
    simp [cancelBooking, hb, heng, h]
  · intro h
    simp [cancelBooking, hb, heng, h]

/-- C5 witness: cancelling booking id `"12"` where the engine removes the
whole booking with uid `"u1"` emits exactly one cancel-usage event for
`"u1"`. -/
theorem cancelBooking_accounting_witness :
    (cancelBooking svA fullCancelEngine {} (some "12") none DEFAULT_PLATFORM_PARAMS).1.billing
      = [BillingEvent.cancelUsage "u1"] :=
  (cancelBooking_accounting svA fullCancelEngine {} (some "12") none DEFAULT_PLATFORM_PARAMS
    { bookingId := 12, bookingUid := "u1", onlyRemovedAttendee := false }
    (by decide) rfl).2 rfl

/-- C6 counterexample: an instant-meeting engine result in which the owner id
and booking uid are both present (`userId = some 0`, `bookingUid = some
"xyz"`) but for which no usage event is emitted, because the code tests
JavaScript truthiness and `0` is falsy; the engine call itself succeeded. -/
theorem createInstantBooking_present_zero_owner_no_event :
    (createInstantBooking svA zeroOwnerInstantEngine {} none 100
        DEFAULT_PLATFORM_PARAMS).1.billing = [] ∧
    (createInstantBooking svA zeroOwnerInstantEngine {} none 100
        DEFAULT_PLATFORM_PARAMS).1.result
      = Except.ok { status := "success"
                    data := { userId := some 0, bookingUid := some "xyz" } } := by
  refine ⟨rfl, rfl⟩

/-- C6 (amended): for a successful create-instant engine result whose owner id
is present and non-zero and whose booking uid is present and non-empty,
exactly one usage event is emitted, with effective time equal to the current
time advanced by the fixed 10-second grace window (not the current time);
and when the principal is unresolved, the request passed to the
instant-meeting engine carries the sentinel owner id `-1`. -/
theorem createInstantBooking_usage_event (sv : Services)
    (engine : Req → Except ErrKind InstantResult) (req : Req)
    (clientId : Option String) (now : Nat) (st : PlatformState)
    (im : InstantResult) (u : Int) (uid : String)
    (heng : engine (createInstantBookingAssemble sv req clientId st).1 = Except.ok im) :
    (im.userId = some u → u ≠ 0 → im.bookingUid = some uid → uid ≠ "" →
      (createInstantBooking sv engine req clientId now st).1.billing
        = [BillingEvent.increaseUsage u uid (now + 10) none]) ∧
    (getOwnerId sv req.authHeader = none →
      (createInstantBooking sv engine req clientId now st).1.engineCalls.map Req.userId
        = [some (-1)]) := by
  constructor
  · intro hu hu0 hid hid0
    simp [createInstantBooking, heng, hu, hid, jsTruthyInt, jsTruthyStr, hu0, hid0]
  · intro hnone
    simp only [createInstantBooking, heng]
    simp [createInstantBookingAssemble, createNextApiBookingRequest, hnone]

/-- C6 witness: with an unresolvable credential, the engine request carries
owner id `-1`, and a successful instant meeting for owner `9`, uid `"xyz"` at
clock reading `100` emits exactly one usage event with effective time `110`
(= now + 10 seconds). -/
theorem createInstantBooking_usage_event_witness :
    (createInstantBooking svA instantEngineA {} none 100 DEFAULT_PLATFORM_PARAMS).1.billing
      = [BillingEvent.increaseUsage 9 "xyz" 110 none] ∧
    (createInstantBooking svA instantEngineA {} none 100
        DEFAULT_PLATFORM_PARAMS).1.engineCalls.map Req.userId = [some (-1)] :=
  ⟨(createInstantBooking_usage_event svA instantEngineA {} none 100 DEFAULT_PLATFORM_PARAMS
      { userId := some 9, bookingUid := some "xyz" } 9 "xyz" rfl).1
      rfl (by decide) rfl (by decide),
   (createInstantBooking_usage_event svA instantEngineA {} none 100 DEFAULT_PLATFORM_PARAMS
      { userId := some 9, bookingUid := some "xyz" } 9 "xyz" rfl).2 rfl⟩

/-- C7: when the booking-id path parameter is absent or empty (falsy), the
cancel handler raises the not-found classified error `404 / "Booking ID is
required."`, never calls the cancellation engine, and emits no billing
event. -/
theorem cancelBooking_missing_id (sv : Services)
    (engine : Req → Except ErrKind CancelResult) (req : Req)
    (bookingId : Option String) (clientId : Option String) (st : PlatformState)
    (hb : jsTruthyStr bookingId = false) :
    (cancelBooking sv engine req bookingId clientId st).1.result
      = Except.error { statusCode := 404, message := "Booking ID is required." } ∧
    (cancelBooking sv engine req bookingId clientId st).1.engineCalls = [] ∧
    (cancelBooking sv engine req bookingId clientId st).1.billing = [] := by
  refine ⟨?_, ?_, ?_⟩ <;> simp [cancelBooking, hb]

/-- C7 witness: cancelling with the empty booking id yields the not-found
classified error and no engine call. -/
theorem cancelBooking_missing_id_witness :
    (cancelBooking svA fullCancelEngine {} (some "") none DEFAULT_PLATFORM_PARAMS).1.result
      = Except.error { statusCode := 404, message := "Booking ID is required." } ∧
    (cancelBooking svA fullCancelEngine {} (some "") none
        DEFAULT_PLATFORM_PARAMS).1.engineCalls = [] :=
  ⟨(cancelBooking_missing_id svA fullCancelEngine {} (some "") none DEFAULT_PLATFORM_PARAMS
      (by decide)).1,
   (cancelBooking_missing_id svA fullCancelEngine {} (some "") none DEFAULT_PLATFORM_PARAMS
      (by decide)).2.1⟩

/-- C10 counterexample: the booking id `"12abc"` is non-empty and not a
decimal numeral, yet `parseInt` yields `12` rather than `NaN`, and the engine
is invoked with `body.id = 12`, contradicting the claim that every
non-numeral id is parsed to `NaN`. -/
theorem cancelBooking_leading_digits_not_nan :
    parseIntJS "12abc" = JSNum.val 12 ∧
    (cancelBooking svA fullCancelEngine {} (some "12abc") none
        DEFAULT_PLATFORM_PARAMS).1.engineCalls.map (fun r => r.body.id)
      = [some (JSNum.val 12)] := by
  refine ⟨by decide, rfl⟩

/-- C10 (amended): for a cancel request whose booking-id path parameter is
non-empty and on which `parseInt` yields `NaN` (no leading decimal digits,
e.g. `"abc"`), no not-found error is raised: the payload's `id` field is set
to `NaN`, the cancellation engine is still invoked with exactly that payload,
and a successful engine result produces the success envelope. -/
theorem cancelBooking_nan_id (sv : Services)
    (engine : Req → Except ErrKind CancelResult) (req : Req) (s : String)
    (clientId : Option String) (st : PlatformState)
    (h1 : s ≠ "") (h2 : parseIntJS s = JSNum.nan) :
    (cancelBooking sv engine req (some s) clientId st).1.engineCalls
      = [(cancelBookingAssemble sv req s clientId st).1] ∧
    (cancelBookingAssemble sv req s clientId st).1.body.id = some JSNum.nan ∧
    (∀ res, engine (cancelBookingAssemble sv req s clientId st).1 = Except.ok res →
      (cancelBooking sv engine req (some s) clientId st).1.result
        = Except.ok { status := "success", data := res }) := by
  refine ⟨?_, ?_, ?_⟩
  · cases heng : engine (cancelBookingAssemble sv req s clientId st).1 <;>
      simp [cancelBooking, jsTruthyStr, h1, heng]
  · simp [cancelBookingAssemble, createNextApiBookingRequest, h2]
  · intro res heng
    simp [cancelBooking, jsTruthyStr, h1, heng]

/-- C10 witness: the non-numeric booking id `"abc"` parses to `NaN`, the
engine is invoked with `body.id = NaN`, and the engine's successful result is
returned in the success envelope. -/
theorem cancelBooking_nan_id_witness :
    (cancelBookingAssemble svA {} "abc" none DEFAULT_PLATFORM_PARAMS).1.body.id
      = some JSNum.nan ∧
    (cancelBooking svA fullCancelEngine {} (some "abc") none
        DEFAULT_PLATFORM_PARAMS).1.result
      = Except.ok { status := "success"
                    data := { bookingId := 12, bookingUid := "u1"
                              onlyRemovedAttendee := false } } :=
  ⟨(cancelBooking_nan_id svA fullCancelEngine {} "abc" none DEFAULT_PLATFORM_PARAMS
      (by decide) (by decide)).2.1,
   (cancelBooking_nan_id svA fullCancelEngine {} "abc" none DEFAULT_PLATFORM_PARAMS
      (by decide) (by decide)).2.2
     { bookingId := 12, bookingUid := "u1", onlyRemovedAttendee := false } rfl⟩
